import Mathlib

/-!
Shallow embedding of `src/framework/theme/components/layout/layout.component.ts`
(the nebular layout components). The stateful Angular component
`NbLayoutComponent` is modelled as explicit state passing over `ShellState`:
each lifecycle hook, input setter and subscription callback of the source
becomes a Lean function from state (plus the event payload) to state, together
with the externally observable outputs it produces (signals sent on a request
listener channel). The document body class list and its inline overflow style,
the host element class list, and the dynamic `veryTopRef` view container are
part of the state, since the component mutates them.
-/

namespace NebularLayout

/-- Modelled from the spec: `convertToBoolProperty` lives in `../helpers`,
which is not among the sources. The spec says attribute-like inputs, either a
boolean or a string, are normalized to strict booleans, with the string
"false" coercing to false (naive truthiness would wrongly yield true) and
attribute presence (an empty string value) coercing to true. An input value is
therefore either a boolean or a string. -/
inductive AttrVal where
  | b (v : Bool)
  | s (v : String)
  deriving Repr, DecidableEq

/-- Modelled from the spec: normalization of an attribute-like input to a
strict boolean. Booleans pass through; a string is true unless it is the
literal "false". -/
def convertToBoolProperty : AttrVal → Bool
  | .b v => v
  | .s v => v != "false"

/-- `Renderer2.addClass` / `classList.add`: adding a class token is idempotent;
a token already present is not duplicated. -/
def rendererAddClass (classes : List String) (c : String) : List String :=
  if c ∈ classes then classes else classes ++ [c]

/-- `Renderer2.removeClass` / `classList.remove`: removes every occurrence of
the token. -/
def rendererRemoveClass (classes : List String) (c : String) : List String :=
  classes.filter (fun x => x ≠ c)

/-- A component instance created by `this.veryTopRef.createComponent` for the
descriptor carried by an append-to-top request. Descriptors and instance
identities are abstracted as naturals. -/
structure ComponentInstance where
  descriptor : Nat
  id : Nat
  deriving Repr, DecidableEq

/-- A signal sent on an append-to-top request listener (an rxjs Subject):
`data.listener.next(componentRef)` delivers the created instance, and
`data.listener.complete()` closes the channel. -/
inductive AppendSignal where
  | next (inst : ComponentInstance)
  | complete
  deriving Repr, DecidableEq

/-- The mutable state of one `NbLayoutComponent` together with the pieces of
global document state it touches. Subscription objects are modelled by
activity flags: a flag is true exactly while the corresponding rxjs
`Subscription` exists and has not been unsubscribed, and a broadcaster event
reaches the handler body only while the flag is true. -/
structure ShellState where
  centerValue : Bool
  windowModeValue : Bool
  withScrollValue : Bool
  /-- class list of the document body element -/
  bodyClasses : List String
  /-- the inline overflow style of the document body, "" when never set -/
  bodyOverflow : String
  /-- class list of the host element (`this.elementRef.nativeElement`) -/
  layoutClasses : List String
  /-- instances currently inserted in the `veryTopRef` view container -/
  topInstances : List ComponentInstance
  nextInstanceId : Nat
  themeSubActive : Bool
  appendClassSubActive : Bool
  removeClassSubActive : Bool
  appendSubActive : Bool
  clearSubActive : Bool
  /-- whether `ngAfterViewInit` has run -/
  attached : Bool
  /-- whether the promise handed to `spinnerService.registerLoader` has had
  its `resolve` invoked -/
  loaderResolved : Bool
  /-- arguments of the calls made to `themeService.changeWindowWidth`, in
  order -/
  widthReports : List Nat
  /-- number of calls made to `themeService.clearLayoutTop` -/
  clearTopRequestsIssued : Nat
  deriving Repr, DecidableEq

/-- rxjs `BehaviorSubject` semantics: a new subscriber is synchronously handed
the current value at subscription time. This returns the values a fresh
subscriber has already received the moment `subscribe` returns. -/
def behaviorSubjectValuesOnSubscribe {α : Type} (current : α) : List α :=
  [current]

/-- The constructor registers `new Promise((resolve) => this.afterViewInit$.subscribe((_) => resolve()))`
with the spinner service, where `afterViewInit$ = new BehaviorSubject(null)`.
The promise is resolved as soon as the subscriber receives any value, so it is
already resolved when `subscribe` returns, inside the constructor. -/
def loaderResolvedAtConstruction : Bool :=
  !(behaviorSubjectValuesOnSubscribe (none : Option Bool)).isEmpty

/-- The `NbLayoutComponent` constructor: subscribes to the theme-change,
append-layout-class and remove-layout-class streams, registers the loader
promise with the spinner service, and reports the current window width
(`window.innerWidth`, the argument) to the theme service. The append-to-top
and clear-top subscriptions are not created here; `ngAfterViewInit` creates
them. -/
def construct (innerWidth : Nat) : ShellState :=
  { centerValue := false
    windowModeValue := false
    withScrollValue := false
    bodyClasses := []
    bodyOverflow := ""
    layoutClasses := []
    topInstances := []
    nextInstanceId := 0
    themeSubActive := true
    appendClassSubActive := true
    removeClassSubActive := true
    appendSubActive := false
    clearSubActive := false
    attached := false
    loaderResolved := loaderResolvedAtConstruction
    widthReports := [innerWidth]
    clearTopRequestsIssued := 0 }

/-- Input setter `set center(val)`. -/
def setCenter (st : ShellState) (val : AttrVal) : ShellState :=
  { st with centerValue := convertToBoolProperty val }

/-- Input setter `set withScroll(val)`: stores the coerced value and then
mutates the document body inline style. `overflow` is set to "hidden" when the
stored value is true and to the CSS keyword "initial" (which resets the
property to its default) when it is false. -/
def setWithScroll (st : ShellState) (val : AttrVal) : ShellState :=
  let st1 := { st with withScrollValue := convertToBoolProperty val }
  if st1.withScrollValue then { st1 with bodyOverflow := "hidden" }
  else { st1 with bodyOverflow := "initial" }

/-- Input setter `set windowMode(val)`: stores the coerced value and then
unconditionally executes `this.withScroll = true`, invoking the `withScroll`
setter with the boolean true. -/
def setWindowMode (st : ShellState) (val : AttrVal) : ShellState :=
  let st1 := { st with windowModeValue := convertToBoolProperty val }
  setWithScroll st1 (.b true)

/-- The theme-change subscription callback: while subscribed, on a
`ThemeEvent` it removes the body class `nb-theme-` ++ previous when
`theme.previous` is truthy (present and not the empty string), then adds the
body class `nb-theme-` ++ name. -/
def onThemeChange (st : ShellState) (name : String) (previous : Option String) :
    ShellState :=
  if st.themeSubActive then
    let body1 := match previous with
      | some p => if p ≠ "" then rendererRemoveClass st.bodyClasses ("nb-theme-" ++ p)
                  else st.bodyClasses
      | none => st.bodyClasses
    { st with bodyClasses := rendererAddClass body1 ("nb-theme-" ++ name) }
  else st

/-- The append-layout-class subscription callback: while subscribed, adds the
given class to the host element. -/
def onAppendLayoutClass (st : ShellState) (className : String) : ShellState :=
  if st.appendClassSubActive then
    { st with layoutClasses := rendererAddClass st.layoutClasses className }
  else st

/-- The remove-layout-class subscription callback: while subscribed, removes
the given class from the host element. -/
def onRemoveLayoutClass (st : ShellState) (className : String) : ShellState :=
  if st.removeClassSubActive then
    { st with layoutClasses := rendererRemoveClass st.layoutClasses className }
  else st

/-- The append-to-top subscription callback: while subscribed, resolves a
factory for the requested descriptor, creates the component inside
`veryTopRef`, sends the created instance on the request listener with `next`,
and then `complete`s the listener. While not subscribed (before
`ngAfterViewInit`, or after `ngOnDestroy`) the event is not observed at all:
the state is unchanged and nothing is sent on the listener. -/
def handleAppendToTop (st : ShellState) (descriptor : Nat) :
    ShellState × List AppendSignal :=
  if st.appendSubActive then
    let inst : ComponentInstance := { descriptor := descriptor, id := st.nextInstanceId }
    ({ st with
        topInstances := st.topInstances ++ [inst]
        nextInstanceId := st.nextInstanceId + 1 },
     [AppendSignal.next inst, AppendSignal.complete])
  else (st, [])

/-- The clear-top subscription callback: while subscribed, clears the
`veryTopRef` view container and sends `true` on the request listener (the
listener is not completed). While not subscribed the event is not observed. -/
def handleClearTop (st : ShellState) : ShellState × List Bool :=
  if st.clearSubActive then
    ({ st with topInstances := [] }, [true])
  else (st, [])

/-- `ngAfterViewInit`: creates the append-to-top and clear-top subscriptions
and pushes `true` into `afterViewInit$`, which resolves the loader promise if
it were still pending. -/
def ngAfterViewInit (st : ShellState) : ShellState :=
  { st with
      appendSubActive := true
      clearSubActive := true
      attached := true
      loaderResolved := true }

/-- `ngOnDestroy`: calls `themeService.clearLayoutTop()`, which emits a
clear-top request to the broadcaster; the component, still subscribed at that
moment, services it synchronously. Then every subscription is unsubscribed. -/
def ngOnDestroy (st : ShellState) : ShellState :=
  let st1 := (handleClearTop st).1
  let st2 := { st1 with clearTopRequestsIssued := st1.clearTopRequestsIssued + 1 }
  { st2 with
      themeSubActive := false
      appendClassSubActive := false
      removeClassSubActive := false
      appendSubActive := false
      clearSubActive := false }

/-- The `window:resize` host listener: forwards `event.target.innerWidth` to
`themeService.changeWindowWidth` on every invocation, no gating or
debouncing. -/
def onResize (st : ShellState) (innerWidth : Nat) : ShellState :=
  { st with widthReports := st.widthReports ++ [innerWidth] }

/-- Claim C1, counterexample: after the event sequence name "a" / previous
null followed by name "b" / previous "a", the document body class list does
not contain "theme-b". The handler derives body classes with the prefix
"nb-theme-", not "theme-", so the claimed class pattern theme-NAME fails. -/
theorem themeClassPatternClaimFails :
    "theme-b" ∉
      (onThemeChange (onThemeChange (construct 0) "a" none) "b" (some "a")).bodyClasses := by
  decide

/-- Claim C1, amended: on a ThemeEvent with a present previous name, the body
class derived from the previous name is removed before the class derived from
the new name is added, and body classes follow the pattern nb-theme-NAME:
after the sequence name "a" / previous null then name "b" / previous "a", the
body class list contains nb-theme-b and does not contain nb-theme-a. -/
theorem themeClassSwap (st : ShellState) (name p : String)
    (hsub : st.themeSubActive = true) (hp : p ≠ "") :
    (onThemeChange st name (some p)).bodyClasses
      = rendererAddClass (rendererRemoveClass st.bodyClasses ("nb-theme-" ++ p))
          ("nb-theme-" ++ name)
    ∧ "nb-theme-b" ∈
        (onThemeChange (onThemeChange (construct 0) "a" none) "b" (some "a")).bodyClasses
    ∧ "nb-theme-a" ∉
        (onThemeChange (onThemeChange (construct 0) "a" none) "b" (some "a")).bodyClasses := by
  refine ⟨?_, by decide, by decide⟩
  simp [onThemeChange, hsub, hp]

/-- Witness for themeClassSwap at a concrete state and event. -/
theorem themeClassSwap_witness :
    (onThemeChange (construct 0) "b" (some "a")).bodyClasses
      = rendererAddClass (rendererRemoveClass (construct 0).bodyClasses ("nb-theme-" ++ "a"))
          ("nb-theme-" ++ "b")
    ∧ "nb-theme-b" ∈
        (onThemeChange (onThemeChange (construct 0) "a" none) "b" (some "a")).bodyClasses
    ∧ "nb-theme-a" ∉
        (onThemeChange (onThemeChange (construct 0) "a" none) "b" (some "a")).bodyClasses :=
  themeClassSwap (construct 0) "b" "a" rfl (by decide)

/-- Claim C2: evaluation of the constructor shows the loader promise is
already resolved while the view is not yet attached, contradicting the claim
that resolution is ordered strictly after attachment. The subscription made in
the constructor to `afterViewInit$` (a BehaviorSubject) synchronously receives
the current value and invokes `resolve` before the constructor returns. -/
theorem loaderResolvedBeforeAttachment :
    (construct 1024).loaderResolved = true ∧ (construct 1024).attached = false :=
  ⟨rfl, rfl⟩

/-- Claim C3: for every prior state, setting windowMode to true leaves
withScrollValue true, and setting windowMode to false does not reset
withScrollValue to false. -/
theorem windowModeTrueForcesWithScroll (st : ShellState) :
    (setWindowMode st (.b true)).withScrollValue = true
    ∧ ¬ (setWindowMode st (.b false)).withScrollValue = false := by
  constructor <;> simp [setWindowMode, setWithScroll, convertToBoolProperty]

/-- Claim C4: while the append-to-top subscription is active (it is created by
ngAfterViewInit), an append request for a descriptor inserts exactly one new
instance into the top view container, sends that instance on the request
listener exactly once, and then completes the listener: the signal trace is
next followed by complete. -/
theorem appendToTopServesRequest (st : ShellState) (d : Nat)
    (h : st.appendSubActive = true) :
    (handleAppendToTop st d).1.topInstances
        = st.topInstances ++ [⟨d, st.nextInstanceId⟩]
    ∧ (handleAppendToTop st d).2
        = [AppendSignal.next ⟨d, st.nextInstanceId⟩, AppendSignal.complete]
    ∧ (∀ st0 : ShellState, (ngAfterViewInit st0).appendSubActive = true) := by
  refine ⟨?_, ?_, fun st0 => rfl⟩ <;> simp [handleAppendToTop, h]

/-- Witness for appendToTopServesRequest on an attached shell. -/
theorem appendToTopServesRequest_witness :
    (handleAppendToTop (ngAfterViewInit (construct 0)) 5).1.topInstances
        = (ngAfterViewInit (construct 0)).topInstances
            ++ [⟨5, (ngAfterViewInit (construct 0)).nextInstanceId⟩]
    ∧ (handleAppendToTop (ngAfterViewInit (construct 0)) 5).2
        = [AppendSignal.next ⟨5, (ngAfterViewInit (construct 0)).nextInstanceId⟩,
           AppendSignal.complete]
    ∧ (∀ st0 : ShellState, (ngAfterViewInit st0).appendSubActive = true) :=
  appendToTopServesRequest (ngAfterViewInit (construct 0)) 5 rfl

/-- Claim C5: while the clear-top subscription is active (it is created by
ngAfterViewInit), a clear request empties the top view container and sends the
value true on the request listener. -/
theorem clearTopServesRequest (st : ShellState)
    (h : st.clearSubActive = true) :
    (handleClearTop st).1.topInstances = [] ∧ (handleClearTop st).2 = [true] := by
  constructor <;> simp [handleClearTop, h]

/-- Witness for clearTopServesRequest on an attached shell. -/
theorem clearTopServesRequest_witness :
    (handleClearTop (ngAfterViewInit (construct 0))).1.topInstances = []
    ∧ (handleClearTop (ngAfterViewInit (construct 0))).2 = [true] :=
  clearTopServesRequest (ngAfterViewInit (construct 0)) rfl

/-- Claim C6: every call of the withScroll setter with true synchronously sets
the body overflow style to "hidden"; every call with false sets it to the CSS
keyword "initial", which resets the property to its default, regardless of the
prior state. -/
theorem withScrollControlsBodyOverflow (st : ShellState) :
    (setWithScroll st (.b true)).withScrollValue = true
    ∧ (setWithScroll st (.b true)).bodyOverflow = "hidden"
    ∧ (setWithScroll st (.b false)).withScrollValue = false
    ∧ (setWithScroll st (.b false)).bodyOverflow = "initial" := by
  refine ⟨?_, ?_, ?_, ?_⟩ <;> simp [setWithScroll, convertToBoolProperty]

/-- Claim C7: the freshly constructed shell has neither the append-to-top nor
the clear-top subscription, and while those subscriptions are absent an
append-to-top or clear-top request leaves the state completely unchanged and
sends nothing on its listener; since no trace of the request is kept,
attachment afterwards yields exactly the state it would have yielded had the
request never arrived, so the request is not buffered. -/
theorem preAttachRequestsNotServiced (w d : Nat) (st : ShellState)
    (ha : st.appendSubActive = false) (hc : st.clearSubActive = false) :
    (construct w).appendSubActive = false
    ∧ (construct w).clearSubActive = false
    ∧ handleAppendToTop st d = (st, [])
    ∧ handleClearTop st = (st, [])
    ∧ ngAfterViewInit (handleAppendToTop st d).1 = ngAfterViewInit st
    ∧ ngAfterViewInit (handleClearTop st).1 = ngAfterViewInit st := by
  refine ⟨rfl, rfl, ?_, ?_, ?_, ?_⟩ <;>
    simp [handleAppendToTop, handleClearTop, ha, hc]

/-- Witness for preAttachRequestsNotServiced on a freshly constructed shell. -/
theorem preAttachRequestsNotServiced_witness :
    (construct 3).appendSubActive = false
    ∧ (construct 3).clearSubActive = false
    ∧ handleAppendToTop (construct 3) 7 = (construct 3, [])
    ∧ handleClearTop (construct 3) = (construct 3, [])
    ∧ ngAfterViewInit (handleAppendToTop (construct 3) 7).1 = ngAfterViewInit (construct 3)
    ∧ ngAfterViewInit (handleClearTop (construct 3)).1 = ngAfterViewInit (construct 3) :=
  preAttachRequestsNotServiced 3 7 (construct 3) rfl rfl

/-- Claim C8: ngOnDestroy issues exactly one clear-top request to the
broadcaster and deactivates all five subscriptions; afterwards every
theme-change, append-class, remove-class, append-to-top or clear-top event
leaves the destroyed state unchanged and sends nothing on any listener. -/
theorem destroyMakesSubscriptionsInert (st : ShellState) (name c : String)
    (p : Option String) (d : Nat) :
    (ngOnDestroy st).clearTopRequestsIssued = st.clearTopRequestsIssued + 1
    ∧ (ngOnDestroy st).themeSubActive = false
    ∧ (ngOnDestroy st).appendClassSubActive = false
    ∧ (ngOnDestroy st).removeClassSubActive = false
    ∧ (ngOnDestroy st).appendSubActive = false
    ∧ (ngOnDestroy st).clearSubActive = false
    ∧ onThemeChange (ngOnDestroy st) name p = ngOnDestroy st
    ∧ onAppendLayoutClass (ngOnDestroy st) c = ngOnDestroy st
    ∧ onRemoveLayoutClass (ngOnDestroy st) c = ngOnDestroy st
    ∧ handleAppendToTop (ngOnDestroy st) d = (ngOnDestroy st, [])
    ∧ handleClearTop (ngOnDestroy st) = (ngOnDestroy st, []) := by
  have h1 : (handleClearTop st).1.clearTopRequestsIssued = st.clearTopRequestsIssued := by
    unfold handleClearTop
    split <;> rfl
  have ht : (ngOnDestroy st).themeSubActive = false := rfl
  have hac : (ngOnDestroy st).appendClassSubActive = false := rfl
  have hrc : (ngOnDestroy st).removeClassSubActive = false := rfl
  have hap : (ngOnDestroy st).appendSubActive = false := rfl
  have hcl : (ngOnDestroy st).clearSubActive = false := rfl
  have h2 : (ngOnDestroy st).clearTopRequestsIssued
      = (handleClearTop st).1.clearTopRequestsIssued + 1 := rfl
  refine ⟨by rw [h2, h1], ht, hac, hrc, hap, hcl, ?_, ?_, ?_, ?_, ?_⟩ <;>
    simp [onThemeChange, onAppendLayoutClass, onRemoveLayoutClass,
      handleAppendToTop, handleClearTop, ht, hac, hrc, hap, hcl]

/-- Claim C9: a sequence of resize events appends exactly its widths, in
order, to the list of widths forwarded to the broadcaster: each event produces
exactly one forwarded call carrying its width, and the number of forwarded
calls grows by exactly the number of events. -/
theorem resizeForwardsEveryEvent (st : ShellState) (ws : List Nat) :
    (ws.foldl onResize st).widthReports = st.widthReports ++ ws
    ∧ (ws.foldl onResize st).widthReports.length
        = st.widthReports.length + ws.length := by
  have h : ∀ (l : List Nat) (s : ShellState),
      (l.foldl onResize s).widthReports = s.widthReports ++ l := by
    intro l
    induction l with
    | nil => intro s; simp
    | cons w l ih =>
        intro s
        simp [List.foldl_cons, ih, onResize]
  exact ⟨h ws st, by simp [h ws st]⟩

/-- Claim C10: setting windowMode with any input value, also one that coerces
to false such as the string "false", unconditionally sets withScrollValue to
true and as a side effect sets the document body overflow style to hidden. -/
theorem windowModeAnyValueForcesScrollHidden (st : ShellState) (val : AttrVal) :
    convertToBoolProperty (AttrVal.s "false") = false
    ∧ (setWindowMode st val).withScrollValue = true
    ∧ (setWindowMode st val).bodyOverflow = "hidden" := by
  refine ⟨by decide, ?_, ?_⟩ <;>
    simp [setWindowMode, setWithScroll, convertToBoolProperty]

end NebularLayout
